import Mathlib

/-!
# Verification of the react-native-vosk recognition session manager

Shallow embedding of the iOS native module `src/ios/Vosk.swift` and the
JavaScript wrapper (`src/unnamed/part_000`, the compiled `index.js`).

The module keeps mutable fields (`currentModel`, `recognizer`,
`lastRecognizedResult`, `timeoutTimer`, `hasListener`, `isCleaningUp`) and a
few implicit ones (whether the input tap is installed, whether the audio
engine is running).  We model them as a `SessionState` record and each
handler (`loadModel`, `start`, `stop`, `unload`, `stopInternal`, the result
closure installed by `start`, the timeout timer block) as a pure function
from state to state plus the list of events it emits, in emission order.
Nondeterministic outcomes of platform calls (audio-session setup throwing,
audio-format creation failing, microphone permission) are explicit boolean
parameters.

The shutdown timing of `stopInternal` (the recognizer free scheduled by
`DispatchQueue.main.asyncAfter` 0.5 s later, racing the serial
`processingQueue`) is modelled separately as a set of action interleavings,
below the sequential model.
-/

/-- `VoskResult` (Vosk.swift:5-8): the decoded JSON a decode call returns,
with an optional `partial` field and an optional `text` field. -/
structure VoskResult where
  partialText : Option String
  text : Option String
deriving Repr, DecidableEq

/-- The five event channels of `supportedEvents` (Vosk.swift:58-60), each
carrying the string body passed to `sendEvent`. -/
inductive VoskEvent where
  | onError (body : String)
  | onResult (body : String)
  | onFinalResult (body : String)
  | onPartialResult (body : String)
  | onTimeout (body : String)
deriving Repr, DecidableEq

/-- The mutable state of the `Vosk` module object (Vosk.swift:25-35).
`recognizer` is whether the opaque recognizer pointer is non-nil,
`timeoutTimer` whether a timer is armed, `tapInstalled` whether the input
node currently has a tap, `engineRunning` whether the audio engine runs. -/
structure SessionState where
  currentModel : Option String
  recognizer : Bool
  lastRecognizedResult : Option VoskResult
  timeoutTimer : Bool
  hasListener : Bool
  isCleaningUp : Bool
  tapInstalled : Bool
  engineRunning : Bool
deriving Repr, DecidableEq

/-- Outcome of a promise-based native call: `resolve` or `reject` with a
code and a message. -/
inductive CallOutcome where
  | resolved (msg : String)
  | rejected (code msg : String)
deriving Repr, DecidableEq

/-- `loadModel` (Vosk.swift:62-74): clears any current model first
(lines 64-66), then attempts the load; `loadOk` is whether
`VoskModel(name:)` succeeds. On success resolves with the new model, on
failure rejects `load_model` leaving no model loaded. -/
def loadModel (s : SessionState) (name : String) (loadOk : Bool) :
    SessionState × CallOutcome :=
  let s1 := { s with currentModel := none }
  if loadOk then
    ({ s1 with currentModel := some name }, CallOutcome.resolved "true")
  else
    (s1, CallOutcome.rejected "load_model" "Failed to load model")

/-- The events of the result-delivery closure (Vosk.swift:130-139): on a
completed (final) result with a listener and non-empty `text`, `onResult`;
on a non-final result with a listener and non-empty `partial`,
`onPartialResult` — but only when the partial differs from
`lastRecognizedResult?.partial` (line 135). -/
def resultEvents (s : SessionState) (parsed : VoskResult) (completed : Bool) :
    List VoskEvent :=
  if completed && s.hasListener then
    match parsed.text with
    | some t => if t ≠ "" then [VoskEvent.onResult t] else []
    | none => []
  else if !completed && s.hasListener then
    match parsed.partialText with
    | some p =>
      if p ≠ "" then
        if s.lastRecognizedResult.bind VoskResult.partialText ≠ some p then
          [VoskEvent.onPartialResult p]
        else []
      else []
    | none => []
  else []

/-- One step of the result-delivery closure (Vosk.swift:127-143): emit the
events of `resultEvents`, then retain the parsed result as
`lastRecognizedResult` (line 139) whether or not anything was emitted. -/
def handleResult (s : SessionState) (parsed : VoskResult) (completed : Bool) :
    SessionState × List VoskEvent :=
  ({ s with lastRecognizedResult := some parsed }, resultEvents s parsed completed)

/-- `stopInternal` (Vosk.swift:193-224): removes the tap (194); if the
engine is running, stops it and — when a listener exists and events are not
suppressed — emits `onFinalResult` with the retained partial when non-empty
(196-203); clears `lastRecognizedResult` (205); invalidates the timer
(207-208); schedules the recognizer free (210-216; this sequential model
records its eventual effect, the 0.5 s race is modelled by `StopTrace`
below); deactivates the audio session (218-223). -/
def stopInternal (s : SessionState) (withoutEvents : Bool) :
    SessionState × List VoskEvent :=
  let s1 := { s with tapInstalled := false }
  let evs :=
    if s1.engineRunning then
      if s1.hasListener && !withoutEvents then
        match s1.lastRecognizedResult.bind VoskResult.partialText with
        | some p => if p ≠ "" then [VoskEvent.onFinalResult p] else []
        | none => []
      else []
    else []
  ({ s1 with
      engineRunning := false
      lastRecognizedResult := none
      timeoutTimer := false
      recognizer := false },
   evs)

/-- `stop` (Vosk.swift:186-191): sets `isCleaningUp`, runs
`stopInternal(withoutEvents: false)`, resets `isCleaningUp`. -/
def stop (s : SessionState) : SessionState × List VoskEvent :=
  let s1 := { s with isCleaningUp := true }
  let r := stopInternal s1 false
  ({ r.1 with isCleaningUp := false }, r.2)

/-- `unload` (Vosk.swift:178-184): like `stop`, then clears the model. -/
def unload (s : SessionState) : SessionState × List VoskEvent :=
  let s1 := { s with isCleaningUp := true }
  let r := stopInternal s1 false
  ({ r.1 with isCleaningUp := false, currentModel := none }, r.2)

/-- The armed timer's block (Vosk.swift:156-161): when the timer is still
armed it fires once, running `stopInternal(withoutEvents: true)` and then
sending `onTimeout`; a timer invalidated by `stopInternal` (line 207) never
fires, modelled by the guard. -/
def timeoutFire (s : SessionState) : SessionState × List VoskEvent :=
  if s.timeoutTimer then
    let r := stopInternal s true
    (r.1, r.2 ++ [VoskEvent.onTimeout ""])
  else (s, [])

/-- `VoskStartOptions` (Vosk.swift:10-21). -/
structure VoskStartOptions where
  grammar : Option (List String)
  timeout : Option Int
deriving Repr, DecidableEq

/-- The catch block of `start` (Vosk.swift:166-175): `onError` when a
listener exists, free any recognizer and set it nil, reject. -/
def startCatch (s : SessionState) :
    SessionState × CallOutcome × List VoskEvent :=
  (({ s with recognizer := false } : SessionState),
   CallOutcome.rejected "start" "Unable to start AVAudioEngine",
   if s.hasListener then [VoskEvent.onError "Unable to start AVAudioEngine"] else [])

/-- The tail of a successful `start` (Vosk.swift:119-165): install the tap
(119), prepare the engine, request permission — the engine is started only
in the granted callback (149-152) — arm the timer whenever `timeout` is
non-nil (154-163), and resolve (165). -/
def startProceed (s : SessionState) (timeout : Option Int)
    (permissionGranted : Bool) :
    SessionState × CallOutcome × List VoskEvent :=
  ({ s with
      tapInstalled := true
      engineRunning := permissionGranted
      timeoutTimer := timeout.isSome },
   CallOutcome.resolved "Recognizer successfully started",
   [])

/-- `start` (Vosk.swift:76-176). Rejects `No model loaded` when no model is
loaded (78-81). Otherwise: the audio-session setup (97-98) may throw
(`sessionSetupThrows`), landing in the catch; the PCM format construction
(104-110) may fail (`formatOk = false`), rejecting directly; with a
non-empty grammar the JSON encoding (113) may throw (`encodeThrows`) before
the recognizer is created; otherwise the recognizer is created (114-117)
and `startProceed` runs. -/
def start (s : SessionState) (options : Option VoskStartOptions)
    (sessionSetupThrows : Bool) (formatOk : Bool) (encodeThrows : Bool)
    (permissionGranted : Bool) :
    SessionState × CallOutcome × List VoskEvent :=
  match s.currentModel with
  | none => (s, CallOutcome.rejected "start" "No model loaded", [])
  | some _ =>
    let timeout := (options.bind VoskStartOptions.timeout)
    if sessionSetupThrows then startCatch s
    else if !formatOk then
      (s, CallOutcome.rejected "start" "Unable to create audio format", [])
    else
      match options.bind VoskStartOptions.grammar with
      | some g =>
        if g ≠ [] then
          if encodeThrows then startCatch s
          else startProceed { s with recognizer := true } timeout permissionGranted
        else startProceed { s with recognizer := true } timeout permissionGranted
      | none => startProceed { s with recognizer := true } timeout permissionGranted

/-- Outcome of the JS wrapper's `start` (src/unnamed/part_000:42-44): when
permission is denied the async function returns `undefined` — the promise
resolves with no value — and the native module is never invoked; when
granted it returns the native call's outcome. -/
inductive JsStartOutcome where
  | resolvedUndefined
  | nativeCall (o : CallOutcome)
deriving Repr, DecidableEq

/-- The JS wrapper `start` (src/unnamed/part_000:42-44):
`if (await this.requestRecordPermission()) return VoskModule.start(options)`.
`native` is what the native `start` would return when invoked. -/
def jsStart (permissionGranted : Bool) (native : CallOutcome) : JsStartOutcome :=
  if permissionGranted then JsStartOutcome.nativeCall native
  else JsStartOutcome.resolvedUndefined

/-- Whether a JS start outcome surfaces a failure to the caller. -/
def JsStartOutcome.isFailure : JsStartOutcome → Bool
  | JsStartOutcome.nativeCall (CallOutcome.rejected _ _) => true
  | _ => false

/-- Modelled from the spec: the external decoder capability (spec §6) is not
part of src/ — `feed(session, waveformBytes) -> { text }` for final
results, `{ partial }` for non-final. A raw decode outcome is therefore
either a final with a text or a non-final with a partial. -/
inductive RawResult where
  | finalRaw (t : String)
  | nonfinalRaw (p : String)
deriving Repr, DecidableEq

/-- The `VoskResult` the JSON decoder at Vosk.swift:131 produces for each
raw shape, paired with the `completed` flag `recognizeData` returns
(Vosk.swift:249-257). -/
def parseRaw : RawResult → VoskResult × Bool
  | RawResult.finalRaw t => (⟨none, some t⟩, true)
  | RawResult.nonfinalRaw p => (⟨some p, none⟩, false)

/-- One delivered decode result, end to end: parse then handle. -/
def handleRaw (s : SessionState) (r : RawResult) :
    SessionState × List VoskEvent :=
  handleResult s (parseRaw r).1 (parseRaw r).2

/-- A Listening period's stream of decode results, delivered in order. -/
def runResults (s : SessionState) : List RawResult → SessionState × List VoskEvent
  | [] => (s, [])
  | r :: rs =>
    let a := handleRaw s r
    let b := runResults a.1 rs
    (b.1, a.2 ++ b.2)

/-- The dedup rule as the spec words it ("emit `onPartialResult(text)` only
if `text` differs from the last emitted partial"): a diffing pass keyed on
the LAST EMITTED partial text, for comparison with the code's
`resultEvents`, whose comparison key is the last RETAINED result. -/
def specDifferRun (lastEmitted : Option String) :
    List RawResult → List VoskEvent
  | [] => []
  | RawResult.finalRaw t :: rs =>
    (if t ≠ "" then [VoskEvent.onResult t] else []) ++ specDifferRun lastEmitted rs
  | RawResult.nonfinalRaw p :: rs =>
    if p ≠ "" ∧ lastEmitted ≠ some p then
      VoskEvent.onPartialResult p :: specDifferRun (some p) rs
    else specDifferRun lastEmitted rs

/-- Whether an event is one of the three result channels with empty text. -/
def carriesEmptyText : VoskEvent → Bool
  | VoskEvent.onResult t => t == ""
  | VoskEvent.onPartialResult t => t == ""
  | VoskEvent.onFinalResult t => t == ""
  | _ => false

/-!
## The shutdown race of `stopInternal` (Vosk.swift:210-216)

After `stopInternal` removes the tap, the recognizer free is scheduled with
`DispatchQueue.main.asyncAfter(deadline: .now() + 0.5)` — a fixed
wall-clock delay on the main queue.  Buffers already enqueued on the serial
`processingQueue` before the tap was removed still run `recognizeData`
(Vosk.swift:226-258) there: its nil-check of `self.recognizer` (line 232)
and its `vosk_recognizer_accept_waveform` call (line 246) execute on
`processingQueue`, while the free executes on the main queue.  The
`isCleaningUp` guard does not close the window: `stop()` resets it to
`false` as soon as `stopInternal` returns (Vosk.swift:190), 0.5 s before
the free runs.  `asyncAfter` establishes no happens-before edge with blocks
on `processingQueue`, whose execution time is unbounded, so any
interleaving consistent with per-thread program order and the nil-check's
outcome is reachable.  We model one admitted decode call racing one
shutdown as the set of such interleavings.
-/

/-- The atomic actions of the race: `removeTap` (Vosk.swift:194) and
`freeRec` (211-216) on the control/main side, in that order;
`guardRec` (232, the read of `self.recognizer`) and `acceptWave` (246, the
decode call on the recognizer) on the `processingQueue` side, in that
order. -/
inductive StopAct where
  | removeTap
  | guardRec
  | acceptWave
  | freeRec
deriving Repr, DecidableEq

/-- `a` occurs (first) strictly before `b` in the trace. -/
def occursBefore (a b : StopAct) (tr : List StopAct) : Bool :=
  match tr.findIdx? (· = a), tr.findIdx? (· = b) with
  | some i, some j => i < j
  | _, _ => false

/-- The reachable interleavings of one admitted decode call and one
shutdown: each action at most once; the tap removal, the recognizer read
and the free all occur; main-thread program order `removeTap` before
`freeRec` (the asyncAfter delay); decode-thread program order `guardRec`
before `acceptWave`; and the nil-check semantics — the decode call happens
exactly when the recognizer read preceded the free (the read then saw a
non-nil recognizer; otherwise `recognizeData` returned early).  No other
ordering between the two threads exists in the code: the 0.5 s delay
relates `freeRec` to `removeTap` only, not to the unboundedly delayed
`processingQueue` work. -/
def validStopTrace (tr : List StopAct) : Bool :=
  (tr.count StopAct.removeTap == 1) &&
  (tr.count StopAct.guardRec == 1) &&
  (tr.count StopAct.freeRec == 1) &&
  (tr.count StopAct.acceptWave == 0 || tr.count StopAct.acceptWave == 1) &&
  occursBefore StopAct.removeTap StopAct.freeRec tr &&
  ((tr.count StopAct.acceptWave == 1) ==
    occursBefore StopAct.guardRec StopAct.freeRec tr) &&
  (if tr.count StopAct.acceptWave == 1 then
    occursBefore StopAct.guardRec StopAct.acceptWave tr
  else true)

/-- The interleaving in which the recognizer read passes just before the
0.5 s deadline and the decode call is still running when the free fires:
tap removed, recognizer read (non-nil), recognizer freed, waveform
accepted on the freed recognizer. -/
def uafTrace : List StopAct :=
  [StopAct.removeTap, StopAct.guardRec, StopAct.freeRec, StopAct.acceptWave]

example :
    (runResults
      { currentModel := some "m", recognizer := true,
        lastRecognizedResult := none, timeoutTimer := false,
        hasListener := true, isCleaningUp := false, tapInstalled := true,
        engineRunning := true }
      [RawResult.nonfinalRaw "hel", RawResult.nonfinalRaw "hel",
       RawResult.nonfinalRaw "hello", RawResult.finalRaw "hello world"]).2
    = [VoskEvent.onPartialResult "hel", VoskEvent.onPartialResult "hello",
       VoskEvent.onResult "hello world"] := by decide

/-- A Listening state with a subscribed listener and no retained result. -/
def listeningState : SessionState :=
  { currentModel := some "model-en-us", recognizer := true,
    lastRecognizedResult := none, timeoutTimer := false, hasListener := true,
    isCleaningUp := false, tapInstalled := true, engineRunning := true }

/-- A Loaded state: model present, nothing running. -/
def loadedState : SessionState :=
  { currentModel := some "model-en-us", recognizer := false,
    lastRecognizedResult := none, timeoutTimer := false, hasListener := true,
    isCleaningUp := false, tapInstalled := false, engineRunning := false }

/-! ## Theorems -/

/-- C1: the claim says the shutdown lets every admitted decode call run to
completion before the decoder resource is freed, enforced structurally by a
synchronization barrier rather than a fixed wall-clock delay.  The code
instead frees the recognizer on a fixed 0.5 s `asyncAfter` delay with no
join against the `processingQueue`; the interleaving `uafTrace`, reachable
under the code's only orderings, has the decode call
(`vosk_recognizer_accept_waveform`) execute after the free — a decode call
issued after release began. -/
theorem release_delay_uaf_trace :
    validStopTrace uafTrace = true
    ∧ occursBefore StopAct.freeRec StopAct.acceptWave uafTrace = true
    ∧ ¬ (∀ tr, validStopTrace tr = true →
          occursBefore StopAct.freeRec StopAct.acceptWave tr = false) := by
  refine ⟨by decide, by decide, fun h => ?_⟩
  exact absurd (h uafTrace (by decide)) (by decide)

/-- C2: a caller-issued `stop` taken while Listening (engine running) with
a listener subscribed emits exactly `onFinalResult p` when the retained
result holds a non-empty partial `p`, and nothing otherwise; and a natural
final result supersedes any pending partial — after handling a final, the
retained result holds no partial text, so the subsequent `stop` emits no
`onFinalResult`. -/
theorem stop_synthesized_final :
    (∀ s : SessionState, s.engineRunning = true → s.hasListener = true →
      (stop s).2 =
        (match s.lastRecognizedResult.bind VoskResult.partialText with
         | some p => if p ≠ "" then [VoskEvent.onFinalResult p] else []
         | none => []))
    ∧ (∀ (s : SessionState) (t : String),
        ((handleRaw s (RawResult.finalRaw t)).1.lastRecognizedResult.bind
          VoskResult.partialText) = none) := by
  constructor
  · intro s he hl
    simp [stop, stopInternal, he, hl]
  · intro s t
    simp [handleRaw, handleResult, parseRaw, Option.bind]

/-- C2 witness: scenario 4 of the spec — `stop` with pending partial
`"turn on"` emits exactly one `onFinalResult("turn on")`; and after a
natural final, a `stop` emits nothing. -/
theorem stop_synthesized_final_witness :
    (stop { listeningState with
        lastRecognizedResult := some ⟨some "turn on", none⟩ }).2
      = [VoskEvent.onFinalResult "turn on"]
    ∧ ((handleRaw listeningState (RawResult.finalRaw "hello")).1.lastRecognizedResult.bind
        VoskResult.partialText) = none := by
  constructor
  · have h := stop_synthesized_final.1
      { listeningState with lastRecognizedResult := some ⟨some "turn on", none⟩ }
      rfl rfl
    simpa using h
  · exact stop_synthesized_final.2 listeningState "hello"

/-- C3: a timeout that fires while the timer is still armed runs the same
shutdown (`stopInternal` forced) and emits exactly one `onTimeout` and no
`onFinalResult`; a `stop` taken first disarms the timer, and a fire
attempted on the disarmed timer does nothing. -/
theorem timeout_precedence :
    (∀ s : SessionState, s.timeoutTimer = true →
      (timeoutFire s).2 = [VoskEvent.onTimeout ""]
      ∧ (timeoutFire s).1 = (stopInternal s true).1)
    ∧ (∀ s : SessionState,
        (stop s).1.timeoutTimer = false
        ∧ timeoutFire (stop s).1 = ((stop s).1, [])) := by
  constructor
  · intro s ht
    constructor
    · simp [timeoutFire, stopInternal, ht]
    · simp [timeoutFire, ht]
  · intro s
    constructor
    · simp [stop, stopInternal]
    · simp [timeoutFire, stop, stopInternal]

/-- C3 witness: on a Listening state with the timer armed, the fire emits
exactly `onTimeout`; after a `stop` on the same state the timer is disarmed
and a fire is a no-op. -/
theorem timeout_precedence_witness :
    (timeoutFire { listeningState with timeoutTimer := true }).2
      = [VoskEvent.onTimeout ""]
    ∧ (stop { listeningState with timeoutTimer := true }).1.timeoutTimer = false := by
  constructor
  · exact (timeout_precedence.1 { listeningState with timeoutTimer := true } rfl).1
  · exact (timeout_precedence.2 { listeningState with timeoutTimer := true }).1

/-- C4 counterexample: the code's dedup key is `lastRecognizedResult`, the
last RETAINED result (Vosk.swift:135,139) — not the last EMITTED partial.
On the stream non-final `"a"`, non-final `""`, non-final `"a"`, the empty
partial is suppressed but still retained, so the second `"a"` differs from
the retained key and is emitted again, although it equals the last emitted
partial; the claim's rule would emit `"a"` once. -/
theorem dedup_last_emitted_cex :
    (runResults listeningState
      [RawResult.nonfinalRaw "a", RawResult.nonfinalRaw "",
       RawResult.nonfinalRaw "a"]).2
      = [VoskEvent.onPartialResult "a", VoskEvent.onPartialResult "a"]
    ∧ specDifferRun none
        [RawResult.nonfinalRaw "a", RawResult.nonfinalRaw "",
         RawResult.nonfinalRaw "a"]
      = [VoskEvent.onPartialResult "a"]
    ∧ (runResults listeningState
        [RawResult.nonfinalRaw "a", RawResult.nonfinalRaw "",
         RawResult.nonfinalRaw "a"]).2
      ≠ specDifferRun none
        [RawResult.nonfinalRaw "a", RawResult.nonfinalRaw "",
         RawResult.nonfinalRaw "a"] := by
  refine ⟨by decide, by decide, by decide⟩

/-- C4 amended: with a listener, a non-final result raises
`onPartialResult p` iff `p` is non-empty and differs (string equality) from
the partial field of the last retained result — `lastRecognizedResult`,
which every result (finals and empty partials included) overwrites; in
particular of two consecutive non-final results with identical partial
text the second emits nothing. -/
theorem dedup_last_retained :
    (∀ (s : SessionState) (p : String), s.hasListener = true →
      (handleRaw s (RawResult.nonfinalRaw p)).2 =
        (if p ≠ "" ∧ s.lastRecognizedResult.bind VoskResult.partialText ≠ some p
         then [VoskEvent.onPartialResult p] else []))
    ∧ (∀ (s : SessionState) (p : String),
        (handleRaw (handleRaw s (RawResult.nonfinalRaw p)).1
          (RawResult.nonfinalRaw p)).2 = []) := by
  constructor
  · intro s p hl
    simp only [handleRaw, handleResult, parseRaw, resultEvents, hl]
    by_cases hp : p = "" <;> simp [hp]
  · intro s p
    simp only [handleRaw, handleResult, parseRaw, resultEvents]
    by_cases hl : s.hasListener <;> by_cases hp : p = "" <;>
      simp [hl, hp, Option.bind]

/-- C4 witness for the amended rule: a fresh non-empty partial is emitted;
repeating it immediately is suppressed. -/
theorem dedup_last_retained_witness :
    (handleRaw listeningState (RawResult.nonfinalRaw "hel")).2
      = [VoskEvent.onPartialResult "hel"]
    ∧ (handleRaw (handleRaw listeningState (RawResult.nonfinalRaw "hel")).1
        (RawResult.nonfinalRaw "hel")).2 = [] := by
  constructor
  · have h := dedup_last_retained.1 listeningState "hel" rfl
    simpa using h
  · exact dedup_last_retained.2 listeningState "hel"

/-- C5: no result event ever carries empty text — for every state and every
decode result, the result closure's events carry no empty text, `onResult`
occurs only for a completed result whose text it equals (non-empty), and
`onPartialResult` only for a non-completed result whose partial it equals
(non-empty); and for every shutdown (`stopInternal` on either path) the
events carry no empty text, `onFinalResult` occurring only with the
retained non-empty partial. -/
theorem no_empty_text_events :
    (∀ (s : SessionState) (parsed : VoskResult) (completed : Bool),
      ((handleResult s parsed completed).2.all fun e => !carriesEmptyText e) = true
      ∧ (∀ t, VoskEvent.onResult t ∈ (handleResult s parsed completed).2 →
          completed = true ∧ parsed.text = some t ∧ t ≠ "")
      ∧ (∀ p, VoskEvent.onPartialResult p ∈ (handleResult s parsed completed).2 →
          completed = false ∧ parsed.partialText = some p ∧ p ≠ ""))
    ∧ (∀ (s : SessionState) (w : Bool),
        ((stopInternal s w).2.all fun e => !carriesEmptyText e) = true
        ∧ (∀ p, VoskEvent.onFinalResult p ∈ (stopInternal s w).2 →
            s.lastRecognizedResult.bind VoskResult.partialText = some p ∧ p ≠ "")) := by
  constructor
  · intro s parsed completed
    refine ⟨?_, ?_, ?_⟩
    · simp only [handleResult, resultEvents]
      split
      · rcases h : parsed.text with _ | t
        · simp
        · by_cases ht : t = "" <;> simp [carriesEmptyText, ht]
      · split
        · rcases h : parsed.partialText with _ | p
          · simp
          · by_cases hp : p = "" <;> split <;> simp_all [carriesEmptyText]
        · simp
    · intro t ht
      simp only [handleResult, resultEvents] at ht
      split at ht
      · rcases h : parsed.text with _ | u <;> simp [h] at ht
        obtain ⟨h1, h2⟩ := ht
        subst h2
        rename_i hc
        exact ⟨((Bool.and_eq_true _ _).mp hc).1, rfl, h1⟩
      · split at ht
        · rcases h : parsed.partialText with _ | q <;> simp [h] at ht
        · simp at ht
    · intro p hp
      simp only [handleResult, resultEvents] at hp
      split at hp
      · rcases h : parsed.text with _ | u <;> simp [h] at hp
      · split at hp
        · rcases h : parsed.partialText with _ | q <;> simp [h] at hp
          obtain ⟨h1, h2, h3⟩ := hp
          subst h3
          rename_i hc
          have hcc := ((Bool.and_eq_true _ _).mp hc).1
          exact ⟨by simpa using hcc, rfl, h1⟩
        · simp at hp
  · intro s w
    constructor
    · simp only [stopInternal]
      split
      · split
        · rcases h : ({ s with tapInstalled := false } :
              SessionState).lastRecognizedResult.bind VoskResult.partialText
            with _ | p
          · simp
          · by_cases hp : p = "" <;> simp [carriesEmptyText, hp]
        · simp
      · simp
    · intro p hp
      simp only [stopInternal] at hp
      split at hp
      · split at hp
        · rcases h : ({ s with tapInstalled := false } :
              SessionState).lastRecognizedResult.bind VoskResult.partialText
            with _ | q
          · simp [h] at hp
          · simp only [h] at hp
            split at hp <;> simp_all
        · simp at hp
      · simp at hp

/-- C5 witness: at concrete inputs — a final with empty text and a
shutdown with a retained empty partial emit no empty-text event, and the
`onResult` characterization holds at an emitting input. -/
theorem no_empty_text_events_witness :
    ((handleResult listeningState ⟨none, some ""⟩ true).2.all
      fun e => !carriesEmptyText e) = true
    ∧ ((stopInternal { listeningState with
          lastRecognizedResult := some ⟨some "", none⟩ } false).2.all
        fun e => !carriesEmptyText e) = true
    ∧ (true = true ∧ (⟨none, some "hello"⟩ : VoskResult).text = some "hello"
        ∧ "hello" ≠ "") := by
  refine ⟨(no_empty_text_events.1 listeningState ⟨none, some ""⟩ true).1,
    (no_empty_text_events.2 { listeningState with
      lastRecognizedResult := some ⟨some "", none⟩ } false).1,
    (no_empty_text_events.1 listeningState ⟨none, some "hello"⟩ true).2.1
      "hello" (by decide)⟩

/-- C6 counterexample: `start` arms the timer for ANY non-nil timeout
(Vosk.swift:154-163 has no sign check) — with `timeout = 0` and with
`timeout = -5` the Listening state has the timer armed, although the claim
says zero or negative is treated as "no timeout" and never arms. -/
theorem timeout_zero_arms_cex :
    ((start loadedState (some ⟨none, some 0⟩) false true false true).1).timeoutTimer
      = true
    ∧ ((start loadedState (some ⟨none, some (-5)⟩) false true false true).1).timeoutTimer
      = true := by
  refine ⟨by decide, by decide⟩

/-- C6 amended: on a successful `start` the timer is armed iff the options
carry a timeout value at all — any value, zero and negatives included
(`if let timeout = timeout` checks presence, not sign); only an absent
timeout leaves the timer unarmed. -/
theorem timer_armed_iff_some :
    ∀ (s : SessionState) (m : String) (options : Option VoskStartOptions)
      (pg : Bool), s.currentModel = some m →
      ((start s options false true false pg).1).timeoutTimer
        = (options.bind VoskStartOptions.timeout).isSome := by
  intro s m options pg h
  simp only [start, h]
  rcases options with _ | ⟨g, t⟩
  · simp [startProceed]
  · rcases g with _ | g
    · simp [startProceed, Option.bind]
    · by_cases hg : g = [] <;> simp [hg, startProceed, Option.bind]

/-- C6 amended witness: a start with `timeout = 0` arms the timer. -/
theorem timer_armed_iff_some_witness :
    ((start loadedState (some ⟨none, some 0⟩) false true false true).1).timeoutTimer
      = (some (0 : Int)).isSome := by
  have h := timer_armed_iff_some loadedState "model-en-us"
    (some ⟨none, some 0⟩) true rfl
  simpa using h

/-- C7: `start` with no model loaded rejects `No model loaded`
(Vosk.swift:78-81) and returns the state unchanged — no recognizer, tap or
timer is created, whatever the options and platform outcomes. -/
theorem start_no_model :
    ∀ (s : SessionState) (options : Option VoskStartOptions)
      (a b c d : Bool), s.currentModel = none →
      start s options a b c d
        = (s, CallOutcome.rejected "start" "No model loaded", []) := by
  intro s options a b c d h
  simp [start, h]

/-- C7 witness: a fresh state with no model rejects and is unchanged. -/
theorem start_no_model_witness :
    start { loadedState with currentModel := none } none false true false true
      = ({ loadedState with currentModel := none },
         CallOutcome.rejected "start" "No model loaded", []) :=
  start_no_model { loadedState with currentModel := none } none
    false true false true rfl

/-- C8: with a model loaded, a `start` whose audio-session setup throws
(Vosk.swift:97-98) — or whose grammar encoding throws (113) after the
format was built — lands in the catch (166-175): any recognizer is freed
and set nil, the caller is rejected with the audio-engine error, an
`onError` event is sent exactly when a listener exists, and nothing else of
the state changes, so the session is back in Loaded. -/
theorem start_setup_failure_rollback :
    (∀ (s : SessionState) (m : String) (options : Option VoskStartOptions)
      (fo et pg : Bool), s.currentModel = some m →
      start s options true fo et pg
        = ({ s with recognizer := false },
           CallOutcome.rejected "start" "Unable to start AVAudioEngine",
           if s.hasListener then [VoskEvent.onError "Unable to start AVAudioEngine"]
           else []))
    ∧ (∀ (s : SessionState) (m : String) (g : List String) (t : Option Int)
        (pg : Bool), s.currentModel = some m → g ≠ [] →
        start s (some ⟨some g, t⟩) false true true pg
          = ({ s with recognizer := false },
             CallOutcome.rejected "start" "Unable to start AVAudioEngine",
             if s.hasListener then [VoskEvent.onError "Unable to start AVAudioEngine"]
             else [])) := by
  constructor
  · intro s m options fo et pg h
    simp [start, startCatch, h]
  · intro s m g t pg h hg
    simp [start, startCatch, h, hg, Option.bind]

/-- C8 witness: at a Loaded state with a listener, a throwing setup rejects,
frees the recognizer and emits one `onError`. -/
theorem start_setup_failure_rollback_witness :
    start loadedState none true true false true
      = ({ loadedState with recognizer := false },
         CallOutcome.rejected "start" "Unable to start AVAudioEngine",
         [VoskEvent.onError "Unable to start AVAudioEngine"]) := by
  have h := start_setup_failure_rollback.1 loadedState "model-en-us" none
    true false true rfl
  simpa using h

/-- C9 counterexample: with microphone permission denied, the JS wrapper's
`start` resolves with `undefined` — no failure of any kind is surfaced —
and on iOS the JS layer treats permission as granted, so the native `start`
still resolves successfully and still creates the recognizer and installs
the tap (only the engine is left unstarted by the denied permission
callback, Vosk.swift:149-152); the claim says the call fails with
`PermissionDeniedError` and creates no resources. -/
theorem permission_denied_cex :
    jsStart false (CallOutcome.resolved "Recognizer successfully started")
      = JsStartOutcome.resolvedUndefined
    ∧ (jsStart false
        (CallOutcome.resolved "Recognizer successfully started")).isFailure = false
    ∧ (start loadedState none false true false false).2.1
      = CallOutcome.resolved "Recognizer successfully started"
    ∧ ((start loadedState none false true false false).1).recognizer = true
    ∧ ((start loadedState none false true false false).1).tapInstalled = true := by
  refine ⟨by decide, by decide, by decide, by decide, by decide⟩

/-- C9 amended: when permission is denied the JS wrapper resolves with no
value and never invokes the native module (so on that path no audio or
decoder resource is created), surfacing no error; the native `start`
itself, reached on iOS where the JS layer always reports permission
granted, resolves successfully and creates the recognizer and tap
regardless of the denied permission — only the audio engine stays
stopped. -/
theorem permission_denied_no_native_call :
    (∀ o, jsStart false o = JsStartOutcome.resolvedUndefined
      ∧ (jsStart false o).isFailure = false)
    ∧ (∀ (s : SessionState) (m : String) (options : Option VoskStartOptions),
        s.currentModel = some m →
        (start s options false true false false).2.1
          = CallOutcome.resolved "Recognizer successfully started"
        ∧ ((start s options false true false false).1).recognizer = true
        ∧ ((start s options false true false false).1).tapInstalled = true
        ∧ ((start s options false true false false).1).engineRunning = false) := by
  constructor
  · intro o
    exact ⟨rfl, rfl⟩
  · intro s m options h
    simp only [start, h]
    rcases options with _ | ⟨g, t⟩
    · simp [startProceed]
    · rcases g with _ | g
      · simp [startProceed, Option.bind]
      · by_cases hg : g = [] <;> simp [hg, startProceed, Option.bind]

/-- C9 amended witness: concrete denied-permission runs on both layers. -/
theorem permission_denied_no_native_call_witness :
    (jsStart false (CallOutcome.resolved "x")
      = JsStartOutcome.resolvedUndefined)
    ∧ ((start loadedState none false true false false).1).engineRunning = false := by
  refine ⟨(permission_denied_no_native_call.1 (CallOutcome.resolved "x")).1,
    (permission_denied_no_native_call.2 loadedState "model-en-us" none rfl).2.2.2⟩

/-- C10: `loadModel` discards any current model before attempting the load
(Vosk.swift:64-66): a successful load leaves exactly the new model; a
failed load leaves no model at all (even when one was loaded before) and
rejects, and `start` from that state rejects `No model loaded`. -/
theorem loadModel_single_model :
    ∀ (s : SessionState) (name : String),
      ((loadModel s name true).1.currentModel = some name)
      ∧ ((loadModel s name false).1.currentModel = none)
      ∧ ((loadModel s name false).2
          = CallOutcome.rejected "load_model" "Failed to load model")
      ∧ (∀ (options : Option VoskStartOptions) (a b c d : Bool),
          start (loadModel s name false).1 options a b c d
            = ((loadModel s name false).1,
               CallOutcome.rejected "start" "No model loaded", [])) := by
  intro s name
  refine ⟨by simp [loadModel], by simp [loadModel], by simp [loadModel], ?_⟩
  intro options a b c d
  simp [loadModel, start]
